import Mathlib

/-!
Verification of the halol-broker wallet ledger and trade-risk/PnL engine.

Money values are embedded as rationals.  Python Decimal arithmetic at the
monetary scales used by this code base (2, 4 and 6 decimal places under the
28-significant-digit default context) is exact for the additions,
subtractions, multiplications and divisions that appear here, so those are
modelled by exact rational arithmetic; Decimal quantization is modelled
explicitly by the rounding functions below.  Database writes inside
django transaction.atomic blocks are all-or-nothing, so an operation that
raises is modelled as a function returning Except: the error outcome leaves
the persistent state untouched.
-/

namespace HalolBroker

/-- Rounding of a rational to the nearest integer, ties to even.  This is the
default Decimal context rounding ROUND_HALF_EVEN of Python, the mode used by
a bare quantize call such as the one in src/trading/engine/pnl_engine.py
(no rounding argument, default context). -/
def roundHalfEven (q : ℚ) : ℤ :=
  let n : ℤ := ⌊q⌋
  if 2 * q < 2 * n + 1 then n
  else if 2 * n + 1 < 2 * q then n + 1
  else if n % 2 = 0 then n else n + 1

/-- Model of `x.quantize(Decimal(0.01))` under the default context
rounding: two decimal places, ties to even. -/
def quantize2 (q : ℚ) : ℚ := (roundHalfEven (q * 100) : ℚ) / 100

/-- Model of `x.quantize(Decimal(0.0001))` under the default context
rounding: four decimal places, ties to even. -/
def quantize4 (q : ℚ) : ℚ := (roundHalfEven (q * 10000) : ℚ) / 10000

/-- Rounding of a rational to the nearest integer, ties away from zero.
This is ROUND_HALF_UP of the Python decimal module.  The spec asserts the
PnL engine quantizes with this mode; the code does not.  Kept only to state
that comparison. -/
def roundHalfUpSpec (q : ℚ) : ℤ :=
  if 0 ≤ q then ⌊q + 1/2⌋ else -⌊-q + 1/2⌋

/-- Spec-described 2-decimal quantization with round-half-up. -/
def quantize2HalfUpSpec (q : ℚ) : ℚ := (roundHalfUpSpec (q * 100) : ℚ) / 100

/-- Python truthiness fallback `x or y` for an optional decimal `x`:
`None` and a zero decimal are falsy, every other decimal is truthy. -/
def decOr (x : Option ℚ) (y : ℚ) : ℚ :=
  match x with
  | none => y
  | some v => if v = 0 then y else v

/-! ### Data model (src/trading/models.py, src/accounts/models.py) -/

/-- Embedding of `Position.Side` (src/trading/models.py). -/
inductive Side where
  | BUY
  | SELL
deriving DecidableEq

/-- Embedding of `Position.Status` (src/trading/models.py). -/
inductive PositionStatus where
  | OPEN
  | CLOSED
  | PARTIAL
deriving DecidableEq

/-- Embedding of the `TradeAccount.account_type` choices
(src/trading/models.py). -/
inductive AccountKind where
  | demo
  | real
deriving DecidableEq

/-- Embedding of `Position.Mode` (src/trading/models.py). -/
inductive Mode where
  | ULTRA
  | SEMI
deriving DecidableEq

/-- Embedding of `Position` (src/trading/models.py), restricted to the
fields the trading engine reads or writes.  `accountType` stands for the
related `TradeAccount.account_type`, the only account field `close_trade`
consults.  `closed_at` is a timestamp modelled as a natural number supplied
by the caller in place of `timezone.now()`. -/
structure Position where
  side : Side
  accountType : AccountKind
  entry_price : ℚ
  stop_loss : ℚ
  take_profit : Option ℚ
  position_size : ℚ
  remaining_size : Option ℚ
  status : PositionStatus
  pnl : Option ℚ
  unrealized_pnl : Option ℚ
  closed_at : Option ℕ

/-- Embedding of the `Account.status` choices (src/accounts/models.py). -/
inductive AccountStatus where
  | pending_verification
  | active
  | suspended
  | margin_call
  | closed
deriving DecidableEq

/-- Embedding of `Account` (src/accounts/models.py), restricted to the money
fields the Wallet Service reads or writes. -/
structure Account where
  status : AccountStatus
  balance : ℚ
  locked_balance : ℚ
  daily_loss_current : ℚ

/-- Embedding of the `Account.available_balance` property
(src/accounts/models.py): balance minus locked balance. -/
def Account.available_balance (a : Account) : ℚ := a.balance - a.locked_balance

/-- Embedding of the `Wallet` lifetime counters touched by `apply_pnl`
(src/accounts/models.py). -/
structure Wallet where
  total_profit : ℚ
  total_loss : ℚ

/-- Embedding of the `TransactionType` values used by the Wallet Service
(src/common/enums.py). -/
inductive TxnType where
  | deposit
  | withdraw
  | trade_lock
  | trade_release
  | trade_pnl
deriving DecidableEq

/-- Embedding of `TransactionStatus` (src/common/enums.py). -/
inductive TxnStatus where
  | pending
  | processing
  | completed
  | failed
  | cancelled
deriving DecidableEq

/-- Embedding of a `Transaction` row (src/accounts/models.py), restricted to
the fields the Wallet Service writes and the audit reads.  The trade
reference, description and timestamps carry no ledger content and are
omitted. -/
structure Txn where
  txnType : TxnType
  status : TxnStatus
  amount : ℚ
  balance_before : ℚ
  balance_after : ℚ

/-- The persistent state of one account under the Wallet Service: the
`Account` row, its `Wallet` row, and its `Transaction` rows in creation
order. -/
structure WalletState where
  account : Account
  wallet : Wallet
  txns : List Txn

/-! ### Wallet Service (src/accounts/services/wallet_service.py) -/

/-- Errors raised by `WalletService.lock_balance`
(src/common/exceptions.py). -/
inductive WalletError where
  | accountSuspended
  | insufficientBalance
deriving DecidableEq

/-- Embedding of `WalletService.lock_balance`
(src/accounts/services/wallet_service.py lines 16-55): raises
AccountSuspendedError unless the account status is active, raises
InsufficientBalanceError when the available balance is below the amount,
otherwise adds the amount to `locked_balance` and records a completed
`trade_lock` transaction whose `amount` field is the negated amount;
`balance` itself is not modified, so `balance_after = balance_before`. -/
def lock_balance (s : WalletState) (amount : ℚ) : Except WalletError WalletState :=
  if s.account.status ≠ .active then .error .accountSuspended
  else if s.account.available_balance < amount then .error .insufficientBalance
  else
    let a := s.account
    let a' := { a with locked_balance := a.locked_balance + amount }
    .ok { s with account := a',
                 txns := s.txns ++ [⟨.trade_lock, .completed, -amount, a.balance, a'.balance⟩] }

/-- Embedding of `WalletService.release_balance` (wallet_service.py lines
57-81): subtracts the amount from `locked_balance`, flooring at zero, and
records a completed `trade_release` transaction with the positive amount;
never raises and never touches `balance`. -/
def release_balance (s : WalletState) (amount : ℚ) : WalletState :=
  let a := s.account
  let newLocked := if a.locked_balance - amount < 0 then 0 else a.locked_balance - amount
  let a' := { a with locked_balance := newLocked }
  { s with account := a',
           txns := s.txns ++ [⟨.trade_release, .completed, amount, a.balance, a'.balance⟩] }

/-- Embedding of `WalletService.apply_pnl` (wallet_service.py lines 83-119):
adds the PnL amount to `balance`; a loss also increases
`daily_loss_current` and the lifetime `total_loss` by its absolute value,
a gain increases `total_profit`; records a completed `trade_pnl`
transaction carrying the PnL amount.  The trailing risk-alert check is an
external notification with no ledger effect. -/
def apply_pnl (s : WalletState) (pnl_amount : ℚ) : WalletState :=
  let a := s.account
  let w := s.wallet
  let a' := { a with balance := a.balance + pnl_amount,
                     daily_loss_current :=
                       if pnl_amount < 0 then a.daily_loss_current + |pnl_amount|
                       else a.daily_loss_current }
  let w' := if pnl_amount < 0 then { w with total_loss := w.total_loss + |pnl_amount| }
            else { w with total_profit := w.total_profit + pnl_amount }
  { account := a', wallet := w',
    txns := s.txns ++ [⟨.trade_pnl, .completed, pnl_amount, a.balance, a'.balance⟩] }

/-- Run of `lock_balance` as a state transition: on an exception the atomic
block rolls everything back, so the state is unchanged. -/
def applyLock (s : WalletState) (amount : ℚ) : WalletState :=
  match lock_balance s amount with
  | .ok s' => s'
  | .error _ => s

/-- Sum of the `amount` field over the completed transactions, as computed by
the audit (aggregate Sum over the queryset filtered to completed status; an
empty sum is zero). -/
def completedSum (txns : List Txn) : ℚ :=
  ((txns.filter fun t => t.status = TxnStatus.completed).map Txn.amount).sum

/-- Result of `WalletService.audit_balance` (wallet_service.py lines
142-208), restricted to the numeric fields. -/
structure AuditResult where
  is_consistent : Prop
  account_balance : ℚ
  calculated_balance : ℚ
  transaction_sum : ℚ
  difference : ℚ

/-- Embedding of `WalletService.audit_balance` (wallet_service.py lines
142-208): recompute the initial balance plus the sum of completed
transaction amounts, compare with the stored balance, and report
consistency when the absolute difference is at most 0.01. -/
def audit_balance (s : WalletState) (initial_balance : ℚ) : AuditResult :=
  let transaction_sum := completedSum s.txns
  let calculated_balance := initial_balance + transaction_sum
  let difference := s.account.balance - calculated_balance
  { is_consistent := |difference| ≤ 1/100
    account_balance := s.account.balance
    calculated_balance := calculated_balance
    transaction_sum := transaction_sum
    difference := difference }

/-- The account invariant claimed by the spec:
`0 ≤ locked_balance ≤ balance`. -/
def BalanceInv (a : Account) : Prop :=
  0 ≤ a.locked_balance ∧ a.locked_balance ≤ a.balance

/-! ### PnL Engine (src/trading/engine/pnl_engine.py) -/

/-- Embedding of `PnLEngine.calculate_pnl` (pnl_engine.py lines 14-43).
The line
`position_size = close_size or (position.remaining_size or position.position_size)`
uses Python truthiness, hence `decOr`.  The match on the side is total
because `Side` has exactly the two values the source accepts (any other
string raises ValueError). -/
def calculate_pnl (position : Position) (current_price : ℚ) (close_size : Option ℚ) : ℚ :=
  let entry_price := position.entry_price
  let position_size := decOr close_size (decOr position.remaining_size position.position_size)
  let pnl : ℚ :=
    match position.side with
    | .BUY => (current_price - entry_price) * position_size
    | .SELL => (entry_price - current_price) * position_size
  quantize2 pnl

/-- Embedding of `PnLEngine.apply_close_pnl` (pnl_engine.py lines 102-132):
computes the realized PnL for the close size (defaulting to
`remaining_size or position_size`), adds it to the stored `pnl` (a null
`pnl` counts as zero) and clears `unrealized_pnl`.  Returns the updated
position and the realized PnL. -/
def apply_close_pnl (position : Position) (closing_price : ℚ) (close_size : Option ℚ) :
    Position × ℚ :=
  let cs : ℚ :=
    match close_size with
    | none => decOr position.remaining_size position.position_size
    | some c => c
  let realized_pnl := calculate_pnl position closing_price (some cs)
  let pnl0 := position.pnl.getD 0
  ({ position with pnl := some (pnl0 + realized_pnl), unrealized_pnl := none }, realized_pnl)

/-! ### Trade close (src/trading/services/trade_close.py, pnl_sync.py) -/

/-- Errors `close_trade` can surface.  Every unexpected exception inside the
atomic block, including one raised by a Backend-2 client, is re-raised as a
TradeValidationError by the outer handler of `close_trade`. -/
inductive CloseError where
  | tradeValidation
  | marketData
deriving DecidableEq

/-- A Backend-2 client (src/trading/services/pnl_sync.py): its `apply_pnl`
receives the realized PnL and either returns the amount applied on the
backend side or raises.  The account and trade references it also receives
carry no information used by the sync check and are omitted. -/
def Backend : Type := ℚ → Except CloseError ℚ

/-- Embedding of `MockBackend2Client` (pnl_sync.py): echoes the PnL back.
This is the default client used when `close_trade` is called with a null
`backend_client`. -/
def mockBackend : Backend := fun q => .ok q

/-- A Backend-2 client that always raises, standing for the
mismatching/raising clients of pnl_sync.py used in tests. -/
def failBackend : Backend := fun _ => .error .tradeValidation

/-- Embedding of `PnLSyncService.sync_realized_pnl` (pnl_sync.py lines
44-76): forwards the realized PnL to the backend client and raises
TradeValidationError when the amount the backend reports differs. -/
def sync_realized_pnl (backend : Backend) (realized_pnl : ℚ) : Except CloseError ℚ :=
  match backend realized_pnl with
  | .error e => .error e
  | .ok backend_pnl =>
      if backend_pnl = realized_pnl then .ok backend_pnl else .error .tradeValidation

/-- Embedding of `TradingConstants.PARTIAL_CLOSE_MIN_SIZE`
(src/common/constants.py). -/
def PARTIAL_CLOSE_MIN_SIZE : ℚ := 1/10000

/-- Embedding of `TradingConstants.FULL_CLOSE_THRESHOLD`
(src/common/constants.py). -/
def FULL_CLOSE_THRESHOLD : ℚ := 1/10000

/-- Embedding of `TradingConstants.MIN_BALANCE_FOR_TRADE`
(src/common/constants.py). -/
def MIN_BALANCE_FOR_TRADE : ℚ := 10

/-- What `close_trade` returns and commits: the persisted position, the
realized PnL, and the SL/TP-hit classification used for logging. -/
structure CloseOutcome where
  position : Position
  realized_pnl : ℚ
  is_sl_hit : Prop
  is_tp_hit : Prop

/-- Embedding of `close_trade` (src/trading/services/trade_close.py lines
19-245).

Step 1 looks the position up with status restricted to OPEN or PARTIAL; a
CLOSED position is DoesNotExist and raises TradeValidationError (not
found).  The explicit double-close check of step 2 is kept from the source
although step 1 already excludes CLOSED.  Step 3 rejects a non-positive
closing price with MarketDataError (the source also rejects a null price;
the price is modelled as a present rational).  Step 4 resolves the close
size: null means a full close of `remaining_size or position_size`; an
explicit size must be positive, at least PARTIAL_CLOSE_MIN_SIZE and at most
the remaining size.  Step 6.1 synchronizes with Backend-2 for non-demo
accounts only; any sync failure aborts the whole atomic block.  Steps 7-10
classify SL/TP hits, apply the PnL via `apply_close_pnl`, and persist
CLOSED (stamping `closed_at`, zeroing `remaining_size`) when the remainder
is at most FULL_CLOSE_THRESHOLD, else PARTIAL.  Steps 11-15 are logging and
notification side effects that never alter the committed financial state
and are not modelled. -/
def close_trade (position : Position) (closing_price : ℚ) (close_size : Option ℚ)
    (now : ℕ) (backend : Backend) : Except CloseError CloseOutcome :=
  if position.status = .CLOSED then .error .tradeValidation
  else if position.status = .CLOSED then .error .tradeValidation
  else if closing_price ≤ 0 then .error .marketData
  else
    let remaining_before := decOr position.remaining_size position.position_size
    let csR : Except CloseError ℚ :=
      match close_size with
      | none => .ok remaining_before
      | some cs =>
          if cs ≤ 0 then .error .tradeValidation
          else if cs < PARTIAL_CLOSE_MIN_SIZE then .error .tradeValidation
          else if remaining_before < cs then .error .tradeValidation
          else .ok cs
    match csR with
    | .error e => .error e
    | .ok cs =>
      let remaining_size := remaining_before - cs
      let realized_pnl := calculate_pnl position closing_price (some cs)
      let syncR : Except CloseError Unit :=
        if position.accountType = .demo then .ok ()
        else
          match sync_realized_pnl backend realized_pnl with
          | .error e => .error e
          | .ok _ => .ok ()
      match syncR with
      | .error e => .error e
      | .ok _ =>
        let is_sl_hit : Prop :=
          match position.side with
          | .BUY => closing_price ≤ position.stop_loss
          | .SELL => position.stop_loss ≤ closing_price
        let is_tp_hit : Prop :=
          match position.take_profit with
          | none => False
          | some tp =>
              if tp = 0 then False
              else
                match position.side with
                | .BUY => tp ≤ closing_price
                | .SELL => closing_price ≤ tp
        let p1 := (apply_close_pnl position closing_price (some cs)).1
        let p2 :=
          if remaining_size ≤ FULL_CLOSE_THRESHOLD then
            { p1 with status := .CLOSED, closed_at := some now, remaining_size := some 0 }
          else
            { p1 with status := .PARTIAL, remaining_size := some remaining_size }
        .ok { position := p2, realized_pnl := realized_pnl,
              is_sl_hit := is_sl_hit, is_tp_hit := is_tp_hit }

/-- Run of `close_trade` as a transition on the position row: an exception
rolls the atomic block back, leaving the stored position unchanged. -/
def runClose (position : Position) (closing_price : ℚ) (close_size : Option ℚ)
    (now : ℕ) (backend : Backend) : Position :=
  match close_trade position closing_price close_size now backend with
  | .ok r => r.position
  | .error _ => position

/-! ### Risk engine and trade open (src/trading/engine/risk_engine.py,
src/trading/services/risk.py, validation.py, risk_limits.py,
src/calm/ultra.py, src/trading/services/trade_open.py) -/

/-- Embedding of `Instrument` (src/trading/models.py).  `cryptoHalal`
abstracts the string-level check `HalalCrypto.is_halal` on the symbol
(src/common/constants.py) to the boolean it yields for this symbol. -/
structure Instrument where
  is_halal : Bool
  is_crypto : Bool
  cryptoHalal : Bool
  min_stop_distance : ℚ

/-- Embedding of `TradeAccount` (src/trading/models.py), restricted to the
fields the open-trade flow reads.  The Django model has no max_leverage
column, so `getattr` with default yields `None` there; the optional field
keeps the `validate_leverage` code path faithful. -/
structure TradeAccount where
  account_type : AccountKind
  balance : ℚ
  max_risk_per_trade : ℚ
  max_daily_loss : ℚ
  max_leverage : Option ℚ

/-- Embedding of `calculate_position_size` (src/trading/services/risk.py
lines 5-18): the risk amount `balance * (risk_percent/100)` divided by the
stop distance and quantized to 4 decimal places; a non-positive stop
distance raises ValueError.  When `risk_percent` arrives as a Python float,
the division by 100 makes a detour through IEEE-754 binary64 before the
Decimal conversion, a relative perturbation below 2⁻⁵² that does not affect
the 4-decimal quantized results considered here; on the Decimal call path
the division is exact as modelled. -/
def calculate_position_size (balance risk_percent entry_price stop_loss : ℚ) :
    Except Unit ℚ :=
  let risk_amount := balance * (risk_percent / 100)
  let stop_distance := |entry_price - stop_loss|
  if stop_distance ≤ 0 then .error ()
  else .ok (quantize4 (risk_amount / stop_distance))

/-- Embedding of `RiskEngine.validate_stop_loss_mandatory` (risk_engine.py
lines 21-50): a missing stop loss is an error; for BUY the stop loss must
be strictly below the entry price, for SELL strictly above. -/
def validate_stop_loss_mandatory (stop_loss : Option ℚ) (side : Side) (entry_price : ℚ) :
    Except Unit Unit :=
  match stop_loss with
  | none => .error ()
  | some sl =>
      match side with
      | .BUY => if entry_price ≤ sl then .error () else .ok ()
      | .SELL => if sl ≤ entry_price then .error () else .ok ()

/-- Embedding of `RiskEngine.validate_take_profit_optional` (risk_engine.py
lines 52-76): only validates a present take profit, strictly above entry
for BUY and strictly below for SELL. -/
def validate_take_profit_optional (take_profit : Option ℚ) (side : Side) (entry_price : ℚ) :
    Except Unit Unit :=
  match take_profit with
  | none => .ok ()
  | some tp =>
      match side with
      | .BUY => if tp ≤ entry_price then .error () else .ok ()
      | .SELL => if entry_price ≤ tp then .error () else .ok ()

/-- Embedding of `RiskEngine.validate_risk_percent` (risk_engine.py lines
78-100): the risk percent must be positive and at most the account cap
`max_risk_per_trade`. -/
def validate_risk_percent (risk_percent : ℚ) (account : TradeAccount) : Except Unit Unit :=
  if risk_percent ≤ 0 then .error ()
  else if account.max_risk_per_trade < risk_percent then .error ()
  else .ok ()

/-- Embedding of `RiskEngine.validate_sl_distance` (risk_engine.py lines
102-122): the absolute stop distance must reach the instrument minimum. -/
def validate_sl_distance (stop_loss entry_price : ℚ) (instrument : Instrument) :
    Except Unit Unit :=
  if |entry_price - stop_loss| < instrument.min_stop_distance then .error () else .ok ()

/-- Embedding of `RiskEngine.validate_order` (risk_engine.py lines 124-164),
the four checks in source order; the risk-percent check only runs when a
risk percent is supplied (open_trade always supplies one). -/
def validate_order (account : TradeAccount) (instrument : Instrument) (side : Side)
    (entry_price : ℚ) (stop_loss take_profit : Option ℚ) (risk_percent : Option ℚ) :
    Except Unit Unit := do
  validate_stop_loss_mandatory stop_loss side entry_price
  validate_take_profit_optional take_profit side entry_price
  match risk_percent with
  | none => pure ()
  | some rp => validate_risk_percent rp account
  match stop_loss with
  | none => pure ()
  | some sl => validate_sl_distance sl entry_price instrument

/-- Embedding of `validate_halal_trade` (src/trading/services/validation.py):
the instrument must be halal, crypto instruments must be on the halal list,
the risk must be positive and within `max_risk_per_trade`, and the balance
positive. -/
def validate_halal_trade (account : TradeAccount) (instrument : Instrument)
    (risk_percent : ℚ) : Except Unit Unit :=
  if ¬ instrument.is_halal then .error ()
  else if instrument.is_crypto ∧ ¬ instrument.cryptoHalal then .error ()
  else if risk_percent ≤ 0 then .error ()
  else if account.max_risk_per_trade < risk_percent then .error ()
  else if account.balance ≤ 0 then .error ()
  else .ok ()

/-- Embedding of `validate_leverage` (src/trading/services/risk.py lines
21-41): the instrument-type cap is 50 for crypto and 500 for forex
(RiskLimits.MAX_LEVERAGE); the account leverage falls back to the cap
itself when absent or zero (Python truthiness). -/
def validate_leverage (account : TradeAccount) (instrument : Instrument) :
    Except Unit Unit :=
  let max_leverage : ℚ := if instrument.is_crypto then 50 else 500
  let account_leverage : ℚ :=
    match account.max_leverage with
    | none => max_leverage
    | some l => if l = 0 then max_leverage else l
  if max_leverage < account_leverage then .error ()
  else if ¬ instrument.is_crypto ∧ 500 < account_leverage then .error ()
  else .ok ()

/-- Embedding of `RiskGuard.enforce` (src/trading/services/risk_limits.py)
as invoked by `open_trade`, which constructs a fresh RiskGuard with the
default MockLimitServiceClient, whose `get_daily_loss_current` always
reports zero for a fresh instance. -/
def riskGuard_enforce (account : TradeAccount) (risk_percent : ℚ) : Except Unit Unit :=
  if account.max_risk_per_trade < risk_percent then .error ()
  else
    let daily_loss_current : ℚ := 0
    if 0 < account.max_daily_loss then
      let max_daily_loss_amount := account.balance * account.max_daily_loss / 100
      let potential_loss := account.balance * risk_percent / 100
      if max_daily_loss_amount < daily_loss_current + potential_loss then .error ()
      else .ok ()
    else .ok ()

/-- Modelled from the spec: the file calm/semi.py with SemiCalmMode is
imported by src/calm/helpers.py but absent from the source tree.  The spec
describes mode-specific risk policies with pluggable risk and position-size
thresholds, Semi Calm being the looser profile (the tests treat risk 1.8
percent as within the Semi limit while 2.0 exceeds the Ultra cap of 1);
modelled with a 2 percent risk cap. -/
def semiMaxRiskPercent : ℚ := 2

/-- Modelled from the spec: the Semi Calm position-size cap, looser than the
Ultra Calm cap of 10 percent; see `semiMaxRiskPercent`. -/
def semiMaxPositionSizePercent : ℚ := 20

/-- Embedding of `UltraCalmMode.validate_risk` (src/calm/ultra.py: caps of 1
percent risk and 10 percent position size) and of the spec-modelled
`SemiCalmMode.validate_risk` (see `semiMaxRiskPercent`), selected by
`get_mode_policy` (src/calm/helpers.py); `Mode` is total, so the
unknown-mode ValueError branch of `get_mode_policy` cannot fire. -/
def modePolicy_validate_risk (mode : Mode) (risk_percent position_size_percent : ℚ) :
    Except Unit Unit :=
  match mode with
  | .ULTRA =>
      if 1 < risk_percent then .error ()
      else if 10 < position_size_percent then .error ()
      else .ok ()
  | .SEMI =>
      if semiMaxRiskPercent < risk_percent then .error ()
      else if semiMaxPositionSizePercent < position_size_percent then .error ()
      else .ok ()

/-- Errors `open_trade` can raise (src/common/exceptions.py):
TradeValidationError, MarketDataError and RiskLimitError are sibling
exception classes, none a subclass of another. -/
inductive OpenError where
  | tradeValidation
  | marketData
  | riskLimit
deriving DecidableEq

/-- Embedding of `open_trade` (src/trading/services/trade_open.py lines
21-254).

The `feed` argument models `get_price_feed().get_price(symbol)`: it may
raise (the error case) or return an optional price; an exception, a null
price and a non-positive price all surface as MarketDataError (step 2).
The side check of step 1 cannot fail here because `Side` is total.  Steps
3-9 run the risk engine, halal validation, leverage check, hedge prevention
(`existing_opposite` models the database query for an opposite-side
OPEN/PARTIAL position on the same instrument and account, with the
hard-coded `hedge_disabled = True`), position sizing, the risk guard and
the mode policy, each mapped to the exception type the source wraps it in.
Step 10 requires the balance to reach MIN_BALANCE_FOR_TRADE and the
required margin.  Step 11 creates the OPEN position with
`remaining_size = position_size`; logging and notification failures never
roll it back. -/
def open_trade (account : TradeAccount) (instrument : Instrument) (side : Side)
    (mode : Mode) (entry_price : ℚ) (stop_loss take_profit : Option ℚ)
    (risk_percent : ℚ) (feed : Except Unit (Option ℚ)) (existing_opposite : Bool) :
    Except OpenError Position :=
  match feed with
  | .error _ => .error .marketData
  | .ok none => .error .marketData
  | .ok (some current_price) =>
    if current_price ≤ 0 then .error .marketData
    else
      match validate_order account instrument side entry_price stop_loss take_profit
          (some risk_percent) with
      | .error _ => .error .tradeValidation
      | .ok _ =>
        match validate_halal_trade account instrument risk_percent with
        | .error _ => .error .tradeValidation
        | .ok _ =>
          match validate_leverage account instrument with
          | .error _ => .error .riskLimit
          | .ok _ =>
            if existing_opposite then .error .tradeValidation
            else
              match stop_loss with
              | none => .error .tradeValidation
              | some sl =>
                match calculate_position_size account.balance risk_percent entry_price sl with
                | .error _ => .error .tradeValidation
                | .ok position_size =>
                  match riskGuard_enforce account risk_percent with
                  | .error _ => .error .riskLimit
                  | .ok _ =>
                    let position_size_percent :=
                      position_size * entry_price / account.balance * 100
                    match modePolicy_validate_risk mode risk_percent position_size_percent with
                    | .error _ => .error .riskLimit
                    | .ok _ =>
                      if account.balance < MIN_BALANCE_FOR_TRADE then .error .riskLimit
                      else if account.balance < position_size * entry_price then
                        .error .riskLimit
                      else
                        .ok { side := side
                              accountType := account.account_type
                              entry_price := entry_price
                              stop_loss := sl
                              take_profit := take_profit
                              position_size := position_size
                              remaining_size := some position_size
                              status := .OPEN
                              pnl := none
                              unrealized_pnl := none
                              closed_at := none }

/-! ### Concrete states used by the witnesses and counterexamples -/

/-- An account in a consistent ledger state: balance 100 backed by one
completed deposit of 100. -/
def c1State : WalletState :=
  { account := { status := .active, balance := 100, locked_balance := 0,
                 daily_loss_current := 0 },
    wallet := { total_profit := 0, total_loss := 0 },
    txns := [{ txnType := .deposit, status := .completed, amount := 100,
               balance_before := 0, balance_after := 100 }] }

/-- The state `c1State` after a successful `lock_balance` of 10. -/
def c1Locked : WalletState :=
  { account := { status := .active, balance := 100, locked_balance := 10,
                 daily_loss_current := 0 },
    wallet := { total_profit := 0, total_loss := 0 },
    txns := [{ txnType := .deposit, status := .completed, amount := 100,
               balance_before := 0, balance_after := 100 },
             { txnType := .trade_lock, status := .completed, amount := -10,
               balance_before := 100, balance_after := 100 }] }

/-- An account satisfying the balance invariant with half of an ample
balance locked: balance 100, locked 50. -/
def c5State : WalletState :=
  { account := { status := .active, balance := 100, locked_balance := 50,
                 daily_loss_current := 0 },
    wallet := { total_profit := 0, total_loss := 0 },
    txns := [] }

/-- An account satisfying the balance invariant: balance 100, locked 20. -/
def c5Good : WalletState :=
  { account := { status := .active, balance := 100, locked_balance := 20,
                 daily_loss_current := 0 },
    wallet := { total_profit := 0, total_loss := 0 },
    txns := [] }

/-- A plain real trade account for the open-trade scenarios. -/
def cAccount : TradeAccount :=
  { account_type := .real, balance := 1000, max_risk_per_trade := 2,
    max_daily_loss := 5, max_leverage := none }

/-- A plain halal forex instrument for the open-trade scenarios. -/
def cInstrument : Instrument :=
  { is_halal := true, is_crypto := false, cryptoHalal := true,
    min_stop_distance := 1/10000 }

/-- The example position of the spec scenario, with the position size the
code actually computes: BUY at 1.1000, stop loss 1.0950, size 2000. -/
def c2Pos : Position :=
  { side := .BUY, accountType := .real, entry_price := 11/10, stop_loss := 219/200,
    take_profit := none, position_size := 2000, remaining_size := some 2000,
    status := .OPEN, pnl := none, unrealized_pnl := none, closed_at := none }

/-- A unit-size BUY position entered at 1, used to probe the rounding
mode. -/
def c3Pos : Position :=
  { side := .BUY, accountType := .real, entry_price := 1, stop_loss := 9/10,
    take_profit := none, position_size := 1, remaining_size := some 1,
    status := .OPEN, pnl := none, unrealized_pnl := none, closed_at := none }

/-- An open demo position of size 0.0002, the smallest size whose half still
meets PARTIAL_CLOSE_MIN_SIZE. -/
def c7Pos : Position :=
  { side := .BUY, accountType := .demo, entry_price := 1, stop_loss := 9/10,
    take_profit := none, position_size := 1/5000, remaining_size := some (1/5000),
    status := .OPEN, pnl := none, unrealized_pnl := none, closed_at := none }

/-- An open demo position of size 1, freshly opened. -/
def c7w : Position :=
  { side := .BUY, accountType := .demo, entry_price := 1, stop_loss := 9/10,
    take_profit := none, position_size := 1, remaining_size := some 1,
    status := .OPEN, pnl := none, unrealized_pnl := none, closed_at := none }

/-- A position that has already been fully closed. -/
def c8Pos : Position :=
  { side := .SELL, accountType := .real, entry_price := 1, stop_loss := 11/10,
    take_profit := none, position_size := 1, remaining_size := some 0,
    status := .CLOSED, pnl := some 5, unrealized_pnl := none, closed_at := some 1 }

/-- An open BUY position of size 1 entered at 1, used to show that a zero
close size falls back to the full remaining size. -/
def zeroSizePos : Position :=
  { side := .BUY, accountType := .demo, entry_price := 1, stop_loss := 9/10,
    take_profit := none, position_size := 1, remaining_size := some 1,
    status := .OPEN, pnl := none, unrealized_pnl := none, closed_at := none }

end HalolBroker

namespace HalolBroker

/-! ### Theorems -/

/-- Appending one transaction extends the completed sum by its amount when it
is completed and by nothing otherwise. -/
theorem completedSum_append (l : List Txn) (t : Txn) :
    completedSum (l ++ [t]) =
      completedSum l + (if t.status = .completed then t.amount else 0) := by
  simp only [completedSum, List.filter_append]
  split <;> rename_i hh <;> simp [hh]

/-- Claim C1, counterexample: starting from the consistent state `c1State`
(balance 100 = one completed deposit of 100), a single successful
`lock_balance` of 10 makes `audit_balance` report inconsistency: the lock
writes a completed trade_lock transaction of amount -10 without changing
the balance, so the recomputed balance drops to 90 while the stored balance
stays 100.  This refutes the claim that the ledger invariant is preserved
by every Wallet Service operation. -/
theorem lock_breaks_audit_consistency :
    (audit_balance c1State 0).is_consistent
    ∧ lock_balance c1State 10 = .ok c1Locked
    ∧ ¬ (audit_balance c1Locked 0).is_consistent := by
  refine ⟨?_, ?_, ?_⟩
  · norm_num [audit_balance, c1State, completedSum]
  · norm_num [lock_balance, c1State, c1Locked, Account.available_balance]
  · norm_num [audit_balance, c1Locked, completedSum]

/-- Claim C1, amended: `apply_pnl` preserves the audit difference exactly
(it moves balance and the completed-transaction sum together), while a
successful `lock_balance` of `a` raises the audit difference by `a` and a
`release_balance` of `r` lowers it by `r` (both leave the balance
unchanged while writing signed completed transactions).  Consequently
`audit_balance` stays consistent after a sequence of successful operations
exactly when the locked and released totals cancel to within the 0.01
tolerance — in particular after any sequence of `apply_pnl` operations
alone. -/
theorem audit_difference_under_ops (s : WalletState) (init a r g : ℚ) (s' : WalletState)
    (h : lock_balance s a = .ok s') :
    (audit_balance (apply_pnl s g) init).difference = (audit_balance s init).difference
    ∧ (audit_balance (release_balance s r) init).difference =
        (audit_balance s init).difference - r
    ∧ (audit_balance s' init).difference = (audit_balance s init).difference + a := by
  refine ⟨?_, ?_, ?_⟩
  · simp [audit_balance, apply_pnl, completedSum_append]
    ring
  · simp [audit_balance, release_balance, completedSum_append]
    ring
  · by_cases h1 : s.account.status = .active
    · by_cases h2 : s.account.available_balance < a
      · simp [lock_balance, h1, h2] at h
      · simp [lock_balance, h1, h2] at h
        subst h
        simp [audit_balance, completedSum_append]
        ring
    · simp [lock_balance, h1] at h

/-- Claim C1, witness for `audit_difference_under_ops` at the concrete
consistent state `c1State` with a lock of 10, a release of 3 and a PnL of
7. -/
theorem audit_difference_under_ops_witness :
    (audit_balance (apply_pnl c1State 7) 0).difference
        = (audit_balance c1State 0).difference
    ∧ (audit_balance (release_balance c1State 3) 0).difference
        = (audit_balance c1State 0).difference - 3
    ∧ (audit_balance c1Locked 0).difference
        = (audit_balance c1State 0).difference + 10 :=
  audit_difference_under_ops c1State 0 10 3 7 c1Locked
    (by norm_num [lock_balance, c1State, c1Locked, Account.available_balance])

/-- Claim C2, counterexample: for balance 1000, risk 1 percent, entry
1.1000 and stop loss 1.0950 the code computes a position size of 2000.0000
(risk amount 10.00 over stop distance 0.0050), not the 2.0000 the spec
example states. -/
theorem position_size_not_two :
    calculate_position_size 1000 1 (11/10) (219/200) = .ok 2000
    ∧ calculate_position_size 1000 1 (11/10) (219/200) ≠ .ok 2 := by
  have h : calculate_position_size 1000 1 (11/10) (219/200) = .ok 2000 := by
    norm_num [calculate_position_size, quantize4, roundHalfEven, abs_of_nonneg]
  refine ⟨h, ?_⟩
  rw [h]
  simp

/-- Claim C2, amended: for an account with balance 1000.00, a BUY order at
entry 1.1000 with stop loss 1.0950 and risk 1 percent the computed position
size is 2000.0000, and closing that position (size 2000) at 1.1050 yields a
realized PnL of 10.00 after quantization to 2 decimal places. -/
theorem position_size_and_pnl_example :
    calculate_position_size 1000 1 (11/10) (219/200) = .ok 2000
    ∧ calculate_pnl c2Pos (221/200) none = 10 := by
  constructor
  · norm_num [calculate_position_size, quantize4, roundHalfEven, abs_of_nonneg]
  · norm_num [calculate_pnl, c2Pos, decOr, quantize2, roundHalfEven]

/-- Claim C3, counterexample: a BUY of size 1 entered at 1 and closed at
1.005 has raw PnL exactly 0.005; the code rounds it to 0.00 (ties to even
under the default Decimal context), while the round-half-up rule stated by
the spec would give 0.01. -/
theorem pnl_rounding_not_half_up :
    calculate_pnl c3Pos (201/200) (some 1) = 0
    ∧ quantize2HalfUpSpec ((201/200 - 1) * 1) = 1/100
    ∧ calculate_pnl c3Pos (201/200) (some 1)
        ≠ quantize2HalfUpSpec ((201/200 - c3Pos.entry_price) * 1) := by
  refine ⟨?_, ?_, ?_⟩
  · norm_num [calculate_pnl, c3Pos, decOr, quantize2, roundHalfEven]
  · norm_num [quantize2HalfUpSpec, roundHalfUpSpec]
  · norm_num [calculate_pnl, c3Pos, decOr, quantize2, roundHalfEven,
      quantize2HalfUpSpec, roundHalfUpSpec]

/-- Claim C3, amended: for every side, entry price, exit price and nonzero
size passed explicitly, the PnL function returns the exit-minus-entry times
size for BUY (entry-minus-exit for SELL) rounded to 2 decimal places with
round-half-even: a raw PnL of exactly 0.005 rounds to 0.00, -0.005 rounds
to 0.00, and 0.015 rounds to 0.02. -/
theorem calculate_pnl_formula (p : Position) (price size : ℚ) (h : size ≠ 0) :
    calculate_pnl p price (some size) =
      quantize2 (match p.side with
        | .BUY => (price - p.entry_price) * size
        | .SELL => (p.entry_price - price) * size)
    ∧ quantize2 (1/200) = 0 ∧ quantize2 (-(1/200)) = 0 ∧ quantize2 (3/200) = 1/50 := by
  refine ⟨?_, ?_, ?_, ?_⟩
  · simp [calculate_pnl, decOr, h]
  · norm_num [quantize2, roundHalfEven]
  · norm_num [quantize2, roundHalfEven]
  · norm_num [quantize2, roundHalfEven]

/-- Claim C3, witness for `calculate_pnl_formula` at the unit-size BUY
position `c3Pos` closed at 1.5. -/
theorem calculate_pnl_formula_witness :
    calculate_pnl c3Pos (3/2) (some 1) =
      quantize2 (match c3Pos.side with
        | .BUY => (3/2 - c3Pos.entry_price) * 1
        | .SELL => (c3Pos.entry_price - 3/2) * 1) :=
  (calculate_pnl_formula c3Pos (3/2) 1 (by norm_num)).1

/-- Claim C4: for every account state and positive amount, `lock_balance`
fails with AccountSuspended exactly when the account status is not active;
otherwise it fails with InsufficientBalance exactly when the available
balance (balance minus locked balance) is below the amount; otherwise it
increments `locked_balance` by the amount and appends a completed
trade_lock transaction whose amount field is the negated amount, leaving
the balance unchanged; and on either failure the rolled-back state is the
original one. -/
theorem lock_balance_spec (s : WalletState) (amount : ℚ) (_hpos : 0 < amount) :
    (lock_balance s amount = .error .accountSuspended ↔ s.account.status ≠ .active)
    ∧ (lock_balance s amount = .error .insufficientBalance ↔
        (s.account.status = .active ∧ s.account.available_balance < amount))
    ∧ ((s.account.status = .active ∧ ¬ s.account.available_balance < amount) →
        lock_balance s amount = .ok
          { s with
              account := { s.account with
                locked_balance := s.account.locked_balance + amount },
              txns := s.txns ++
                [⟨.trade_lock, .completed, -amount, s.account.balance, s.account.balance⟩] })
    ∧ ((s.account.status ≠ .active ∨ s.account.available_balance < amount) →
        applyLock s amount = s) := by
  by_cases h1 : s.account.status = .active
  · by_cases h2 : s.account.available_balance < amount
    · simp [lock_balance, applyLock, h1, h2]
    · simp [lock_balance, applyLock, h1, h2]
  · simp [lock_balance, applyLock, h1]

/-- Claim C4, witness for `lock_balance_spec` at the concrete active state
`c1State` with amount 10. -/
theorem lock_balance_spec_witness :
    lock_balance c1State 10 = .error .accountSuspended
      ↔ c1State.account.status ≠ .active :=
  (lock_balance_spec c1State 10 (by norm_num)).1

/-- Claim C5, counterexample: the state `c5State` (balance 100, locked 50)
satisfies `0 ≤ locked_balance ≤ balance`, but applying a PnL of -80 leaves
balance 20 below the untouched locked balance 50, so `apply_pnl` does not
preserve the invariant. -/
theorem apply_pnl_breaks_locked_le_balance :
    BalanceInv c5State.account ∧ ¬ BalanceInv ((apply_pnl c5State (-80)).account) := by
  constructor
  · constructor <;> norm_num [c5State]
  · intro hInv
    have h2 := hInv.2
    norm_num [apply_pnl, c5State] at h2

/-- Claim C5, amended: starting from a state satisfying
`0 ≤ locked_balance ≤ balance`, `lock_balance` with a nonnegative amount
(whether it succeeds or rolls back) and `release_balance` with a
nonnegative amount preserve the invariant, and `apply_pnl` preserves it
exactly under the additional condition
`locked_balance ≤ balance + pnl_amount` — satisfied by every gain, and by a
loss only when it does not exceed the available balance. -/
theorem wallet_ops_preserve_invariant (s : WalletState) (a r g : ℚ)
    (hInv : BalanceInv s.account) :
    (0 ≤ a → BalanceInv ((applyLock s a).account))
    ∧ (0 ≤ r → BalanceInv ((release_balance s r).account))
    ∧ (s.account.locked_balance ≤ s.account.balance + g →
        BalanceInv ((apply_pnl s g).account)) := by
  obtain ⟨hi1, hi2⟩ := hInv
  refine ⟨fun ha => ?_, fun hr => ?_, fun hg => ?_⟩
  · by_cases h1 : s.account.status = .active
    · by_cases h2 : s.account.available_balance < a
      · simpa [applyLock, lock_balance, h1, h2, BalanceInv] using ⟨hi1, hi2⟩
      · have h2' : a ≤ s.account.balance - s.account.locked_balance := by
          simpa [Account.available_balance, not_lt] using h2
        refine ⟨?_, ?_⟩ <;>
          simp [applyLock, lock_balance, h1, h2, BalanceInv] <;> linarith
    · simpa [applyLock, lock_balance, h1, BalanceInv] using ⟨hi1, hi2⟩
  · by_cases h3 : s.account.locked_balance - r < 0
    · constructor <;> simp [release_balance, h3] <;> linarith
    · constructor <;> simp [release_balance, h3] <;> linarith
  · constructor <;> simp [apply_pnl] <;> linarith

/-- Claim C5, witness for `wallet_ops_preserve_invariant` at the concrete
state `c5Good` (balance 100, locked 20) with a release of 5. -/
theorem wallet_ops_preserve_invariant_witness :
    BalanceInv ((release_balance c5Good 5).account) :=
  (wallet_ops_preserve_invariant c5Good 5 5 5
      (by constructor <;> norm_num [c5Good])).2.1 (by norm_num)

/-- Claim C6, counterexample: with stop loss absent and a price feed that
raises, `open_trade` fails with MarketDataError, not with the
TradeValidationError the claim promises for every price-feed behaviour. -/
theorem open_trade_no_sl_feed_error :
    open_trade cAccount cInstrument .BUY .ULTRA 1 none none 1 (.error ()) false
      = .error .marketData
    ∧ open_trade cAccount cInstrument .BUY .ULTRA 1 none none 1 (.error ()) false
      ≠ .error .tradeValidation := by
  constructor
  · simp [open_trade]
  · simp [open_trade]

/-- Claim C6, amended: for every combination of the other parameters,
calling `open_trade` with no stop loss never creates a Position; it fails
with TradeValidationError whenever the price feed returns a positive price,
and with MarketDataError when the feed raises or returns an unavailable or
non-positive price. -/
theorem open_trade_missing_stop_loss (account : TradeAccount) (instrument : Instrument)
    (side : Side) (mode : Mode) (entry_price : ℚ) (take_profit : Option ℚ)
    (risk_percent : ℚ) (feed : Except Unit (Option ℚ)) (existing_opposite : Bool) :
    (∀ pos, open_trade account instrument side mode entry_price none take_profit
        risk_percent feed existing_opposite ≠ .ok pos)
    ∧ (∀ price, feed = .ok (some price) → 0 < price →
        open_trade account instrument side mode entry_price none take_profit
          risk_percent feed existing_opposite = .error .tradeValidation) := by
  constructor
  · intro pos
    match feed with
    | .error _ => simp [open_trade]
    | .ok none => simp [open_trade]
    | .ok (some price) =>
      by_cases hp : price ≤ 0
      · simp [open_trade, hp]
      · simp [open_trade, hp, validate_order, validate_stop_loss_mandatory, Bind.bind,
              Except.bind]
  · intro price hf hp
    subst hf
    simp [open_trade, not_le.mpr hp, validate_order, validate_stop_loss_mandatory,
          Bind.bind, Except.bind, not_lt.mpr (le_of_lt hp)]

/-- Claim C6, witness for `open_trade_missing_stop_loss`: with a live feed
returning price 1, omitting the stop loss yields TradeValidationError. -/
theorem open_trade_missing_stop_loss_witness :
    open_trade cAccount cInstrument .BUY .ULTRA 1 none none 1 (.ok (some 1)) false
      = .error .tradeValidation :=
  (open_trade_missing_stop_loss cAccount cInstrument .BUY .ULTRA 1 none 1
      (.ok (some 1)) false).2 1 rfl (by norm_num)

/-- Claim C7, counterexample: on the open position `c7Pos` of size 0.0002,
closing exactly half (0.0001, which meets the minimum partial-close size)
succeeds but leaves the position CLOSED with remaining size 0, not PARTIAL
with remaining size 0.0001, because the remainder does not exceed
FULL_CLOSE_THRESHOLD. -/
theorem half_close_at_minimum_closes :
    ∃ r, close_trade c7Pos 1 (some (1/10000)) 0 mockBackend = .ok r
      ∧ r.position.status = .CLOSED
      ∧ r.position.status ≠ .PARTIAL
      ∧ r.position.remaining_size = some 0
      ∧ r.position.closed_at = some 0 := by
  refine ⟨{ position :=
              { c7Pos with
                  pnl := some 0,
                  unrealized_pnl := none,
                  status := .CLOSED,
                  closed_at := some 0,
                  remaining_size := some 0 },
            realized_pnl := 0,
            is_sl_hit := False,
            is_tp_hit := False }, ?_, rfl, by simp, rfl, rfl⟩
  norm_num [close_trade, c7Pos, decOr, PARTIAL_CLOSE_MIN_SIZE, FULL_CLOSE_THRESHOLD,
    calculate_pnl, apply_close_pnl, quantize2, roundHalfEven, sync_realized_pnl,
    mockBackend]
  rfl

/-- Claim C7, amended: for every freshly opened position of size s (status
OPEN, remaining size s) with s/2 strictly above FULL_CLOSE_THRESHOLD (equal
to the minimum partial-close size, 0.0001) and positive closing prices,
closing s/2 succeeds and leaves the position PARTIAL with remaining size
s/2 and pnl increased by the realized PnL of the closed half; a subsequent
close of the remainder yields CLOSED with remaining size 0 and the
closed_at timestamp set.  When s/2 instead equals the threshold the first
close is already treated as full (see the counterexample). -/
theorem half_close_then_full_close
    (p : Position) (price1 price2 : ℚ) (now1 now2 : ℕ)
    (hOpen : p.status = .OPEN)
    (hrem : p.remaining_size = some p.position_size)
    (hhalf : FULL_CLOSE_THRESHOLD < p.position_size / 2)
    (hp1 : 0 < price1) (hp2 : 0 < price2) :
    ∃ r1, close_trade p price1 (some (p.position_size / 2)) now1 mockBackend = .ok r1
      ∧ r1.position.status = .PARTIAL
      ∧ r1.position.remaining_size = some (p.position_size / 2)
      ∧ r1.position.pnl = some (p.pnl.getD 0 +
          calculate_pnl p price1 (some (p.position_size / 2)))
      ∧ ∃ r2, close_trade r1.position price2 none now2 mockBackend = .ok r2
        ∧ r2.position.status = .CLOSED
        ∧ r2.position.remaining_size = some 0
        ∧ r2.position.closed_at = some now2 := by
  have hth : FULL_CLOSE_THRESHOLD = 1/10000 := rfl
  have hs : (0:ℚ) < p.position_size := by rw [hth] at hhalf; linarith
  have hsne : p.position_size ≠ 0 := ne_of_gt hs
  have hhalfpos : (0:ℚ) < p.position_size / 2 := by linarith
  have hhne : p.position_size / 2 ≠ 0 := ne_of_gt hhalfpos
  have hnle : ¬ p.position_size / 2 ≤ 0 := not_le.mpr hhalfpos
  have hmin : ¬ p.position_size / 2 < PARTIAL_CLOSE_MIN_SIZE := by
    rw [show PARTIAL_CLOSE_MIN_SIZE = 1/10000 from rfl]
    rw [hth] at hhalf; linarith
  have hnbig : ¬ p.position_size < p.position_size / 2 := by linarith
  have hrem2 : ¬ p.position_size - p.position_size / 2 ≤ FULL_CLOSE_THRESHOLD := by
    rw [hth] at hhalf ⊢; push_neg; linarith
  have hdiff : p.position_size - p.position_size / 2 = p.position_size / 2 := by ring
  have hp1' : ¬ price1 ≤ 0 := not_le.mpr hp1
  have hp2' : ¬ price2 ≤ 0 := not_le.mpr hp2
  have e1 : close_trade p price1 (some (p.position_size / 2)) now1 mockBackend =
      .ok { position :=
              { p with
                  pnl := some (p.pnl.getD 0 +
                    calculate_pnl p price1 (some (p.position_size / 2))),
                  unrealized_pnl := none,
                  status := .PARTIAL,
                  remaining_size := some (p.position_size / 2) },
            realized_pnl := calculate_pnl p price1 (some (p.position_size / 2)),
            is_sl_hit :=
              match p.side with
              | .BUY => price1 ≤ p.stop_loss
              | .SELL => p.stop_loss ≤ price1,
            is_tp_hit :=
              match p.take_profit with
              | none => False
              | some tp =>
                  if tp = 0 then False
                  else
                    match p.side with
                    | .BUY => tp ≤ price1
                    | .SELL => price1 ≤ tp } := by
    simp [close_trade, hOpen, hrem, decOr, hsne, hnle, hmin, hnbig, hrem2, hdiff, hp1',
      hhalf, sync_realized_pnl, mockBackend, apply_close_pnl]
  refine ⟨_, e1, rfl, rfl, rfl, ?_⟩
  have e2 : close_trade
      { p with
          pnl := some (p.pnl.getD 0 +
            calculate_pnl p price1 (some (p.position_size / 2))),
          unrealized_pnl := none,
          status := .PARTIAL,
          remaining_size := some (p.position_size / 2) } price2 none now2 mockBackend =
      .ok { position :=
              { p with
                  pnl := some ((p.pnl.getD 0 +
                      calculate_pnl p price1 (some (p.position_size / 2))) +
                    calculate_pnl
                      { p with
                          pnl := some (p.pnl.getD 0 +
                            calculate_pnl p price1 (some (p.position_size / 2))),
                          unrealized_pnl := none,
                          status := .PARTIAL,
                          remaining_size := some (p.position_size / 2) }
                      price2 (some (p.position_size / 2))),
                  unrealized_pnl := none,
                  status := .CLOSED,
                  closed_at := some now2,
                  remaining_size := some 0 },
            realized_pnl := calculate_pnl
              { p with
                  pnl := some (p.pnl.getD 0 +
                    calculate_pnl p price1 (some (p.position_size / 2))),
                  unrealized_pnl := none,
                  status := .PARTIAL,
                  remaining_size := some (p.position_size / 2) }
              price2 (some (p.position_size / 2)),
            is_sl_hit :=
              match p.side with
              | .BUY => price2 ≤ p.stop_loss
              | .SELL => p.stop_loss ≤ price2,
            is_tp_hit :=
              match p.take_profit with
              | none => False
              | some tp =>
                  if tp = 0 then False
                  else
                    match p.side with
                    | .BUY => tp ≤ price2
                    | .SELL => price2 ≤ tp } := by
    simp [close_trade, decOr, hhne, hp2', sync_realized_pnl, mockBackend, apply_close_pnl,
      sub_self, hth]
  exact ⟨_, e2, rfl, rfl, rfl⟩

/-- Claim C7, witness for `half_close_then_full_close` at the concrete
demo position `c7w` of size 1, closing half at price 2 and the remainder at
price 3. -/
theorem half_close_then_full_close_witness :
    ∃ r1, close_trade c7w 2 (some (c7w.position_size / 2)) 5 mockBackend = .ok r1
      ∧ r1.position.status = .PARTIAL
      ∧ r1.position.remaining_size = some (c7w.position_size / 2)
      ∧ r1.position.pnl = some (c7w.pnl.getD 0 +
          calculate_pnl c7w 2 (some (c7w.position_size / 2)))
      ∧ ∃ r2, close_trade r1.position 3 none 6 mockBackend = .ok r2
        ∧ r2.position.status = .CLOSED
        ∧ r2.position.remaining_size = some 0
        ∧ r2.position.closed_at = some 6 :=
  half_close_then_full_close c7w 2 3 5 6 rfl rfl
    (by norm_num [c7w, FULL_CLOSE_THRESHOLD]) (by norm_num) (by norm_num)

/-- Claim C8: for every position whose status is CLOSED, `close_trade`
fails with TradeValidationError for every closing price, close size,
timestamp and backend client, and the rolled-back position row is
unchanged — PnL is never applied a second time. -/
theorem close_trade_closed_position_fails (p : Position) (price : ℚ) (cs : Option ℚ)
    (now : ℕ) (b : Backend) (h : p.status = .CLOSED) :
    close_trade p price cs now b = .error .tradeValidation
    ∧ runClose p price cs now b = p := by
  simp [close_trade, runClose, h]

/-- Claim C8, witness for `close_trade_closed_position_fails` at the
concrete closed position `c8Pos`. -/
theorem close_trade_closed_position_fails_witness :
    close_trade c8Pos 1 none 0 mockBackend = .error .tradeValidation
    ∧ runClose c8Pos 1 none 0 mockBackend = c8Pos :=
  close_trade_closed_position_fails c8Pos 1 none 0 mockBackend rfl

/-- Claim C9: for every position of a demo account, the outcome of
`close_trade` — success or failure, resulting position, realized PnL and
hit classification — is identical for any two backend clients, because the
external-ledger synchronization branch is never taken for demo accounts. -/
theorem close_trade_demo_ignores_backend (p : Position) (price : ℚ) (cs : Option ℚ)
    (now : ℕ) (b1 b2 : Backend) (h : p.accountType = .demo) :
    close_trade p price cs now b1 = close_trade p price cs now b2 := by
  simp [close_trade, h]

/-- Claim C9, witness for `close_trade_demo_ignores_backend` at the
concrete demo position `c7Pos`, comparing the echoing mock client with a
client that always raises. -/
theorem close_trade_demo_ignores_backend_witness :
    close_trade c7Pos 1 none 0 mockBackend = close_trade c7Pos 1 none 0 failBackend :=
  close_trade_demo_ignores_backend c7Pos 1 none 0 mockBackend failBackend rfl

/-- Claim C10: passing a zero close size to the PnL calculator does not
price a zero-size closure: the zero Decimal is falsy in the size fallback,
so the result equals a full-close computation over
`remaining_size or position_size` — for every position and price the value
with close size 0 equals the value with close size None, and on the
concrete open position `zeroSizePos` (size 1, entry 1) at price 2 the
result is 1, not 0. -/
theorem calculate_pnl_zero_close_size (p : Position) (price : ℚ) :
    calculate_pnl p price (some 0) = calculate_pnl p price none
    ∧ calculate_pnl zeroSizePos 2 (some 0) = 1 := by
  constructor
  · simp [calculate_pnl, decOr]
  · norm_num [calculate_pnl, zeroSizePos, decOr, quantize2, roundHalfEven]

end HalolBroker
